import Mathlib

/-!
Verification development for the Trashcan-Panda firmware
(See-Insights/Trashcan-Panda).

Shallow embedding of the measurement pipeline (`Measure_Trash.cpp`,
`take_measurements.cpp`), the persistent-record validators
(`MyPersistentData.cpp`) and the relevant slices of the lifecycle state
machine (`Trashcan-Panda.cpp`).  Machine integers are modelled as `Nat`
(unsigned fields) or `Int` (signed fields); `float` fields are modelled
as `Rat`, which is exact on the small integral values the firmware
manipulates.
-/

/-- Payload of the System Status record (`sysStatusData::SysData`,
MyPersistentData.h).  Header bytes are not part of the payload model;
the base-class header check is passed in explicitly where a validator
consumes it. -/
structure SysData where
  structuresVersion : ℕ      -- uint8_t
  verboseMode : Bool
  lowPowerMode : Bool
  lowBatteryMode : Bool
  resetCount : ℕ             -- uint8_t
  openTime : ℕ               -- uint8_t
  closeTime : ℕ              -- uint8_t
  lastReport : ℤ             -- time_t
  lastConnection : ℤ         -- time_t
  lastHookResponse : ℤ       -- time_t
  lastConnectionDuration : ℕ -- uint16_t
  firmwareRelease : ℚ        -- float
  trashFull : ℤ              -- int
  trashEmpty : ℤ             -- int
deriving DecidableEq

/-- Payload of the Current Reading record (`currentStatusData::CurrentData`,
MyPersistentData.h).  `alertCode` is stored as `uint8_t` but read back
through the `int8_t` getter, so it is modelled as `ℤ`. -/
structure CurrentData where
  trashHeight : ℤ            -- int
  percentFull : ℚ            -- float
  lastMeasureTime : ℤ        -- time_t
  trashcanEmptied : Bool
  internalTempC : ℚ          -- float
  lidPosition : ℕ            -- uint8_t
  alertCode : ℤ              -- int8_t view of the stored byte
  batteryVoltage : ℚ         -- float
deriving DecidableEq

/-- One accelerometer sample (`LIS3DHSample`): signed 16-bit axes. -/
structure AccelSample where
  x : ℤ
  y : ℤ
  z : ℤ
deriving DecidableEq

/-- The sensor environment one call of `Measure_Trash::measureHeight`
observes: whether the TOF sensor reported data ready within the 10 s
wait, the integer inch value `int(getDistance() * 0.0393701)` when it
did, and the accelerometer sample when `accel.getSample` succeeded. -/
structure MeasureEnv where
  distReady : Bool
  rawDistIn : ℤ
  accelSample : Option AccelSample
deriving DecidableEq

/-- Wiring's `constrain(amt, low, high)`:
`(amt < low) ? low : ((amt > high) ? high : amt)`. -/
def constrain (amt low high : ℤ) : ℤ :=
  if amt < low then low else if amt > high then high else amt

namespace Measure_Trash

/-- The percent-full computation of Measure_Trash.cpp line 92:
`((float)((E - F) - (h - F)) / (E - F)) * 100` where `E`, `F`, `h` are
the integers `trashEmpty`, `trashFull` and the clamped `trashHeight`.
The integer numerator is exact, then the cast and division happen in
floating point, modelled exactly over `ℚ`. -/
def percentFullCalc (trashEmpty trashFull h : ℤ) : ℚ :=
  (((trashEmpty - trashFull) - (h - trashFull) : ℤ) : ℚ)
    / ((trashEmpty - trashFull : ℤ) : ℚ) * 100

/-- `Measure_Trash::measureHeight` (Measure_Trash.cpp lines 62-141) as a
pure state transformer on the Current Reading payload.  `successfulRead`
starts at 2 and is decremented for a TOF data-not-ready outcome and for
a failed accelerometer sample; the `isnan(current.get_trashHeight())`
decrement branch is unreachable because `trashHeight` is an `int`, so it
does not appear.  When the TOF data is ready the height is clamped into
`[trashFull, trashEmpty]`, percent full is computed, and the emptied
flag is derived with the 20/30 hysteresis against the previous percent
full.  The lid position is classified from the z axis against the fixed
threshold 10000.  If fewer than two reads succeeded, `trashHeight`,
`percentFull` and `lidPosition` are zeroed (the emptied flag is not
touched by that branch, mirroring lines 130-135). -/
def measureHeight (sys : SysData) (cur : CurrentData) (env : MeasureEnv) :
    CurrentData :=
  let lastPercentFull := cur.percentFull
  let cur1 : CurrentData :=
    if env.distReady then
      let h := constrain env.rawDistIn sys.trashFull sys.trashEmpty
      let p := percentFullCalc sys.trashEmpty sys.trashFull h
      { cur with
          trashHeight := h
          percentFull := p
          trashcanEmptied := decide (p < 20 ∧ lastPercentFull > 30) }
    else cur
  let cur2 : CurrentData :=
    match env.accelSample with
    | some s =>
        { cur1 with
            lidPosition :=
              if s.z > 10000 then 5
              else if s.z < -(1 : ℤ) * 10000 then 6
              else 1 }
    | none => cur1
  let successfulRead : ℤ :=
    2 - (if env.distReady then 0 else 1) -
      (if env.accelSample.isSome then 0 else 1)
  if successfulRead < 2 then
    { cur2 with trashHeight := 0, percentFull := 0, lidPosition := 0 }
  else cur2

end Measure_Trash

namespace Take_Measurements

/-- `Take_Measurements::takeMeasurements` (take_measurements.cpp lines
37-50): runs `Measure_Trash::measureHeight`, stores the fuel-gauge cell
voltage, optionally samples signal strength (no record state touched),
stores the internal temperature computed from the ADC reading by
`(analogRead(INTERNAL_TEMP_PIN) * 3.3 / 4096.0 - 0.5) * 100.0`, and
returns `1`.  The returned pair is (the function's boolean result, the
updated Current Reading payload). -/
def takeMeasurements (sys : SysData) (cur : CurrentData) (env : MeasureEnv)
    (connected : Bool) (vcell : ℚ) (adcReading : ℤ) : Bool × CurrentData :=
  let cur := Measure_Trash.measureHeight sys cur env
  let cur := { cur with batteryVoltage := vcell }
  let _ := connected   -- getSignalStrength() logs only; no record state changes
  let cur := { cur with
    internalTempC := ((adcReading : ℚ) * (33 / 10) / 4096 - 1 / 2) * 100 }
  (true, cur)

end Take_Measurements

namespace sysStatusData

/-- `sysStatusData::validate` (MyPersistentData.cpp lines 44-67).
`baseValid` is the result of the `PersistentDataFRAM::validate(dataSize)`
header check; the field-range checks only run when it passed.  The
source compares `get_openTime() < 0 || get_openTime() > 12` on a
`uint8_t`, `get_lastConnection() < 0 || get_lastConnectionDuration() > 900`,
then `get_trashEmpty() != 38` and `get_trashFull() != 9`.  `closeTime`
is never examined. -/
def validate (baseValid : Bool) (d : SysData) : Bool :=
  if baseValid then
    if d.openTime < 0 ∨ d.openTime > 12 then false
    else if d.lastConnection < 0 ∨ d.lastConnectionDuration > 900 then false
    else if d.trashEmpty ≠ 38 then false
    else if d.trashFull ≠ 9 then false
    else true
  else false

end sysStatusData

namespace currentStatusData

/-- `currentStatusData::validate` (MyPersistentData.cpp lines 229-240).
The source invokes `PersistentDataFRAM::validate(dataSize)` as a bare
statement and discards its result, so the header verdict `baseValid` is
carried as an argument that the body never consults.  The remaining
checks mirror the source exactly, including the first comparison
`get_trashHeight() < get_trashEmpty() || get_trashHeight() > get_trashFull()`
with its bounds written in that order. -/
def validate (baseValid : Bool) (sys : SysData) (cur : CurrentData) : Bool :=
  let _ := baseValid   -- result of the base-class call, discarded by the source
  if cur.trashHeight < sys.trashEmpty ∨ cur.trashHeight > sys.trashFull then false
  else if cur.percentFull < 0 ∨ cur.percentFull > 100 then false
  else if cur.lastMeasureTime < 0 then false
  else if cur.internalTempC < -40 ∨ cur.internalTempC > 85 then false
  else if cur.lidPosition < 0 ∨ cur.lidPosition > 100 then false
  else if cur.alertCode < 0 ∨ cur.alertCode > 256 then false
  else true

end currentStatusData

/-- The lifecycle states of Trashcan-Panda.cpp line 87. -/
inductive State where
  | INITIALIZATION_STATE
  | ERROR_STATE
  | IDLE_STATE
  | SLEEPING_STATE
  | NAPPING_STATE
  | CONNECTING_STATE
  | REPORTING_STATE
  | RESP_WAIT_STATE
deriving DecidableEq

/-- The slice of the firmware's global mutable state that the modelled
loop steps read and write: the state variable, the Current Reading alert
code, the System Status low-power flag and connection bookkeeping, and
the `dataInFlight` flag. -/
structure DeviceState where
  state : State
  alertCode : ℤ
  lowPowerMode : Bool
  lastConnection : ℤ
  lastConnectionDuration : ℤ
  dataInFlight : Bool
deriving DecidableEq

/-- `const unsigned long webhookWait = 45000UL` (Trashcan-Panda.cpp
line 109): how long to wait for a webhook response, in ms. -/
def webhookWait : ℤ := 45000

/-- One pass of the `CONNECTING_STATE` case (Trashcan-Panda.cpp lines
302-332) after the entry tick: the elapsed connection time in seconds is
stored into `lastConnectionDuration`; on `Particle.connected()` the
machine advances to `RESP_WAIT_STATE` when it arrived from
`REPORTING_STATE` and to `IDLE_STATE` otherwise, recording the
connection time; otherwise, once the stored duration exceeds 600 s the
alert code is set to 30 (cellular ready) or 31 and `lowPowerMode` is
forced true. -/
def connectingStep (connected cellularReady cameFromReporting : Bool)
    (timeNow elapsedSec : ℤ) (d : DeviceState) : DeviceState :=
  let d := { d with lastConnectionDuration := elapsedSec }
  if connected then
    { d with
        lastConnection := timeNow
        state := if cameFromReporting then State.RESP_WAIT_STATE
          else State.IDLE_STATE }
  else if d.lastConnectionDuration > 600 then
    { d with
        alertCode := if cellularReady then 30 else 31
        lowPowerMode := true }
  else d

/-- One pass of the `RESP_WAIT_STATE` case (Trashcan-Panda.cpp lines
285-300) after the entry tick (the entry tick records the timestamp and
raises `dataInFlight`): when the response arrived (`dataInFlight` is
false) the machine returns to `IDLE_STATE`; otherwise once more than
`webhookWait` ms have elapsed since entry the alert code is set to 40. -/
def respWaitStep (elapsedMs : ℤ) (d : DeviceState) : DeviceState :=
  if !d.dataInFlight then { d with state := State.IDLE_STATE }
  else if elapsedMs > webhookWait then { d with alertCode := 40 }
  else d

/-- The end-of-loop housekeeping check of Trashcan-Panda.cpp line 387:
`if (current.get_alertCode() > 0) state = ERROR_STATE;`. -/
def alertCheck (d : DeviceState) : DeviceState :=
  if d.alertCode > 0 then { d with state := State.ERROR_STATE } else d

/-- The factory System Status payload: the calibration constants written
by `sysStatusData::initialize` (trashFull = 9, trashEmpty = 38), open
hours 0-24, and quiescent history fields. -/
def sysFactory : SysData :=
  { structuresVersion := 0
    verboseMode := true
    lowPowerMode := false
    lowBatteryMode := false
    resetCount := 0
    openTime := 0
    closeTime := 24
    lastReport := 0
    lastConnection := 0
    lastHookResponse := 0
    lastConnectionDuration := 0
    firmwareRelease := 4
    trashFull := 9
    trashEmpty := 38 }

/-- A System Status payload identical to the factory one except that the
park opens at hour 20 (within the spec's 0-24 range). -/
def sysOpen20 : SysData :=
  { sysFactory with openTime := 20 }

/-- A Current Reading payload with every field inside the documented
bounds: height 20 inches inside the [9, 38] calibration band, 50 %
full, temperature 25 C, lid right side up, no alert. -/
def curGood : CurrentData :=
  { trashHeight := 20
    percentFull := 50
    lastMeasureTime := 0
    trashcanEmptied := false
    internalTempC := 25
    lidPosition := 5
    alertCode := 0
    batteryVoltage := 4 }

/-- A previous-cycle Current Reading at 40 % full (above the 30 %
hysteresis threshold), emptied flag clear. -/
def cur40 : CurrentData :=
  { curGood with percentFull := 40 }

/-- A measurement environment where the TOF sensor reports 36 inches of
clearance but the accelerometer returns no sample. -/
def envDistOnly : MeasureEnv :=
  { distReady := true, rawDistIn := 36, accelSample := none }

/-- A measurement environment where the TOF sensor reports 20 inches of
clearance (about 62 % full over the factory calibration) but the
accelerometer returns no sample. -/
def envDist20Only : MeasureEnv :=
  { distReady := true, rawDistIn := 20, accelSample := none }

/-- A fully successful measurement environment: 36 inches of clearance
and a lid-up accelerometer sample. -/
def envFull : MeasureEnv :=
  { distReady := true, rawDistIn := 36,
    accelSample := some { x := 0, y := 0, z := 20000 } }

/-- A quiescent device state sitting in `CONNECTING_STATE` with no alert
pending. -/
def devConnecting : DeviceState :=
  { state := State.CONNECTING_STATE
    alertCode := 0
    lowPowerMode := false
    lastConnection := 0
    lastConnectionDuration := 0
    dataInFlight := false }

/-- A device state waiting in `RESP_WAIT_STATE` with data in flight and
no alert pending. -/
def devRespWait : DeviceState :=
  { devConnecting with state := State.RESP_WAIT_STATE, dataInFlight := true }

/-- C1: For every valid calibration pair with trashEmptyInches >
trashFullInches, the percentFull computed by a measurement cycle equals
100 when the clamped heightInches equals trashFullInches, equals 0 when
it equals trashEmptyInches, and is monotonically (strictly) decreasing
in heightInches between those endpoints. -/
theorem c1_percentFull_endpoints_and_monotone
    (E F h₁ h₂ : ℤ) (hEF : F < E)
    (hlow : F ≤ h₁) (hlt : h₁ < h₂) (hhigh : h₂ ≤ E) :
    Measure_Trash.percentFullCalc E F F = 100 ∧
    Measure_Trash.percentFullCalc E F E = 0 ∧
    Measure_Trash.percentFullCalc E F h₂ < Measure_Trash.percentFullCalc E F h₁ := by
  have hpos : (0 : ℚ) < (E : ℚ) - (F : ℚ) := by
    have := sub_pos.mpr hEF
    exact_mod_cast this
  have hne : ((E : ℚ) - (F : ℚ)) ≠ 0 := ne_of_gt hpos
  unfold Measure_Trash.percentFullCalc
  push_cast
  refine ⟨?_, ?_, ?_⟩
  · field_simp
  · field_simp
  · have hnum : ((E : ℚ) - F) - ((h₂ : ℚ) - F) < ((E : ℚ) - F) - ((h₁ : ℚ) - F) := by
      have : (h₁ : ℚ) < (h₂ : ℚ) := by exact_mod_cast hlt
      linarith
    have hdiv :
        (((E : ℚ) - F) - ((h₂ : ℚ) - F)) / ((E : ℚ) - F)
          < (((E : ℚ) - F) - ((h₁ : ℚ) - F)) / ((E : ℚ) - F) :=
      div_lt_div_of_pos_right hnum hpos
    nlinarith [hdiv]

/-- Witness for C1 at the factory calibration pair (38, 9) and heights
10 < 20. -/
theorem c1_witness :
    (9 : ℤ) < 38 ∧ (9 : ℤ) ≤ 10 ∧ (10 : ℤ) < 20 ∧ (20 : ℤ) ≤ 38 ∧
    (Measure_Trash.percentFullCalc 38 9 9 = 100 ∧
     Measure_Trash.percentFullCalc 38 9 38 = 0 ∧
     Measure_Trash.percentFullCalc 38 9 20 < Measure_Trash.percentFullCalc 38 9 10) :=
  ⟨by decide, by decide, by decide, by decide,
    c1_percentFull_endpoints_and_monotone 38 9 10 20 (by decide) (by decide)
      (by decide) (by decide)⟩

/-- C2 counterexample: previous reading 40 % full, distance read
succeeds at 20 inches (about 62 % full, so line 95's hysteresis sets the
flag false), accelerometer read fails.  The zeroing branch then stores
percentFull = 0, so the record ends the cycle with new percentFull 0
(below 20) while the previous reading was 40 (above 30) — yet the
emptied flag is false, refuting the claim's unrestricted "exactly
when". -/
theorem c2_counterexample :
    (Measure_Trash.measureHeight sysFactory cur40 envDist20Only).percentFull < 20 ∧
    cur40.percentFull > 30 ∧
    (Measure_Trash.measureHeight sysFactory cur40 envDist20Only).trashcanEmptied =
      false := by
  norm_num [Measure_Trash.measureHeight, Measure_Trash.percentFullCalc,
    constrain, cur40, curGood, envDist20Only, sysFactory]

/-- C2 (amended): on every measurement cycle in which both the distance
read and the accelerometer read succeed, the emptied flag after the
cycle is true exactly when the newly stored percentFull is below 20
while the previous cycle's percentFull was above 30, and false on every
other such transition; on partial-failure cycles the flag instead keeps
the value the distance branch (or the previous cycle) left in it, which
need not match the zeroed percentFull. -/
theorem c2_wasEmptied_hysteresis (sys : SysData) (cur : CurrentData)
    (env : MeasureEnv) (s : AccelSample)
    (hd : env.distReady = true) (ha : env.accelSample = some s) :
    ((Measure_Trash.measureHeight sys cur env).trashcanEmptied = true ↔
      ((Measure_Trash.measureHeight sys cur env).percentFull < 20 ∧
        cur.percentFull > 30)) := by
  simp [Measure_Trash.measureHeight, hd, ha, decide_eq_true_iff]

/-- Witness for C2: a successful cycle over the factory calibration with
previous reading 40 % full. -/
theorem c2_witness :
    envFull.distReady = true ∧
    envFull.accelSample = some { x := 0, y := 0, z := 20000 } ∧
    ((Measure_Trash.measureHeight sysFactory cur40 envFull).trashcanEmptied = true ↔
      ((Measure_Trash.measureHeight sysFactory cur40 envFull).percentFull < 20 ∧
        cur40.percentFull > 30)) :=
  ⟨rfl, rfl,
    c2_wasEmptied_hysteresis sysFactory cur40 envFull
      { x := 0, y := 0, z := 20000 } rfl rfl⟩

/-- `constrain` lands inside `[low, high]` whenever `low ≤ high`. -/
theorem constrain_mem (amt low high : ℤ) (h : low ≤ high) :
    low ≤ constrain amt low high ∧ constrain amt low high ≤ high := by
  unfold constrain
  split_ifs <;> omega

/-- C3 counterexample: with the factory calibration, a distance reading
of 36 inches (in range) followed by a failed accelerometer sample leaves
the measurement cycle's stored heightInches at 0, outside
[trashFull, trashEmpty] = [9, 38], so the claim's unconditional bound is
false. -/
theorem c3_counterexample :
    ¬ (sysFactory.trashFull ≤
         (Measure_Trash.measureHeight sysFactory curGood envDistOnly).trashHeight ∧
       (Measure_Trash.measureHeight sysFactory curGood envDistOnly).trashHeight ≤
         sysFactory.trashEmpty) := by
  decide

/-- C3 (amended): whenever trashFull ≤ trashEmpty and both the distance
read and the accelerometer read succeed, the heightInches stored at the
end of the measurement cycle lies within [trashFull, trashEmpty]
inclusive, for every raw distance-sensor output; when a read fails the
height is instead zeroed. -/
theorem c3_height_clamped_on_success (sys : SysData) (cur : CurrentData)
    (env : MeasureEnv) (s : AccelSample) (hcal : sys.trashFull ≤ sys.trashEmpty)
    (hd : env.distReady = true) (ha : env.accelSample = some s) :
    sys.trashFull ≤ (Measure_Trash.measureHeight sys cur env).trashHeight ∧
      (Measure_Trash.measureHeight sys cur env).trashHeight ≤ sys.trashEmpty := by
  have h := constrain_mem env.rawDistIn sys.trashFull sys.trashEmpty hcal
  simp [Measure_Trash.measureHeight, hd, ha]
  exact h

/-- Witness for C3 (amended): a fully successful cycle at the factory
calibration. -/
theorem c3_witness :
    sysFactory.trashFull ≤ sysFactory.trashEmpty ∧
    envFull.distReady = true ∧
    envFull.accelSample = some { x := 0, y := 0, z := 20000 } ∧
    (sysFactory.trashFull ≤
        (Measure_Trash.measureHeight sysFactory curGood envFull).trashHeight ∧
      (Measure_Trash.measureHeight sysFactory curGood envFull).trashHeight ≤
        sysFactory.trashEmpty) :=
  ⟨by decide, rfl, rfl,
    c3_height_clamped_on_success sysFactory curGood envFull
      { x := 0, y := 0, z := 20000 } (by decide) rfl rfl⟩

/-- C4 (code bug): with the factory calibration pair (trashFull = 9,
trashEmpty = 38) the Current Reading validator returns false for every
record, whatever the header verdict — its first test compares
`trashHeight < trashEmpty || trashHeight > trashFull` with the bounds
swapped, and with 38 > 9 that disjunction holds for every integer.  In
particular it returns false for records whose fields all satisfy the
documented bounds, contradicting the claim. -/
theorem c4_validate_always_false (b : Bool) (cur : CurrentData) :
    currentStatusData.validate b sysFactory cur = false := by
  have h : cur.trashHeight < sysFactory.trashEmpty ∨
      cur.trashHeight > sysFactory.trashFull := by
    show cur.trashHeight < 38 ∨ cur.trashHeight > 9
    omega
  simp [currentStatusData.validate, h]

/-- C5 counterexample: a System Status record with openHour = 20 (inside
the claim's 0-24 range), closeHour = 24, zero connection duration and
the factory calibration pair is rejected by the validator even though
the claim says it must be accepted — the source tests
`get_openTime() > 12`. -/
theorem c5_counterexample :
    sysOpen20.openTime ≤ 24 ∧ sysOpen20.closeTime ≤ 24 ∧
    sysOpen20.lastConnectionDuration ≤ 900 ∧
    sysOpen20.trashFull = 9 ∧ sysOpen20.trashEmpty = 38 ∧
    sysStatusData.validate true sysOpen20 = false := by
  decide

/-- C5 (amended): given the base record check passes, the System Status
validator returns false exactly when openHour exceeds 12, or the last
connection timestamp is negative, or lastConnectionDurationSec exceeds
900, or the calibration pair differs from the factory constants
(trashFull = 9, trashEmpty = 38); closeHour is never examined. -/
theorem c5_validate_characterization (d : SysData) :
    sysStatusData.validate true d = true ↔
      (d.openTime ≤ 12 ∧ 0 ≤ d.lastConnection ∧
        d.lastConnectionDuration ≤ 900 ∧
        d.trashEmpty = 38 ∧ d.trashFull = 9) := by
  unfold sysStatusData.validate
  split_ifs with h1 h2 h3 h4 h5 <;> simp_all <;> omega

/-- C6: in the Connecting state, on any tick where the device is still
not connected and more than 600 s (10 minutes) have elapsed, a
connectivity alert code (30 or 31) is set, lowPowerMode is forced true,
and the end-of-loop alert check moves the machine to the Error state. -/
theorem c6_connect_timeout_alert (d : DeviceState)
    (cellularReady cameFromReporting : Bool) (timeNow elapsedSec : ℤ)
    (hto : elapsedSec > 600) :
    ((alertCheck (connectingStep false cellularReady cameFromReporting
        timeNow elapsedSec d)).alertCode = 30 ∨
      (alertCheck (connectingStep false cellularReady cameFromReporting
        timeNow elapsedSec d)).alertCode = 31) ∧
    (alertCheck (connectingStep false cellularReady cameFromReporting
      timeNow elapsedSec d)).lowPowerMode = true ∧
    (alertCheck (connectingStep false cellularReady cameFromReporting
      timeNow elapsedSec d)).state = State.ERROR_STATE := by
  cases cellularReady <;>
    simp [connectingStep, alertCheck, hto]

/-- Witness for C6: a quiescent connecting device, cellular ready, 601 s
elapsed. -/
theorem c6_witness :
    (601 : ℤ) > 600 ∧
    (((alertCheck (connectingStep false true true 0 601 devConnecting)).alertCode = 30 ∨
       (alertCheck (connectingStep false true true 0 601 devConnecting)).alertCode = 31) ∧
     (alertCheck (connectingStep false true true 0 601 devConnecting)).lowPowerMode = true ∧
     (alertCheck (connectingStep false true true 0 601 devConnecting)).state =
       State.ERROR_STATE) :=
  ⟨by decide, c6_connect_timeout_alert devConnecting true true 0 601 (by decide)⟩

/-- C7: in the response-wait state with data still in flight, once more
than webhookWait = 45000 ms have elapsed since entering the state, the
cloud-acknowledgement alert code 40 is set, and the end-of-loop alert
check moves the state to Error, so the next scheduling tick runs in the
Error state. -/
theorem c7_ack_timeout (d : DeviceState) (elapsedMs : ℤ)
    (hf : d.dataInFlight = true) (hto : elapsedMs > webhookWait) :
    (alertCheck (respWaitStep elapsedMs d)).alertCode = 40 ∧
    (alertCheck (respWaitStep elapsedMs d)).state = State.ERROR_STATE := by
  simp [respWaitStep, alertCheck, hf, hto]

/-- Witness for C7: a waiting device with data in flight, 46000 ms
elapsed. -/
theorem c7_witness :
    devRespWait.dataInFlight = true ∧ (46000 : ℤ) > webhookWait ∧
    ((alertCheck (respWaitStep 46000 devRespWait)).alertCode = 40 ∧
      (alertCheck (respWaitStep 46000 devRespWait)).state = State.ERROR_STATE) :=
  ⟨rfl, by decide, c7_ack_timeout devRespWait 46000 rfl (by decide)⟩

/-- C8 counterexample: previous reading 40 % full, distance read
succeeds at 36 inches (computing about 6.9 % full, which arms the
emptied flag), accelerometer read fails.  Fewer than two of the reads
succeeded, so heightInches, percentFull and lidOrientation are zeroed —
but the emptied flag remains true, so the claim that every derived field
including wasEmptiedFlag is zeroed is false. -/
theorem c8_counterexample :
    (Measure_Trash.measureHeight sysFactory cur40 envDistOnly).trashHeight = 0 ∧
    (Measure_Trash.measureHeight sysFactory cur40 envDistOnly).percentFull = 0 ∧
    (Measure_Trash.measureHeight sysFactory cur40 envDistOnly).lidPosition = 0 ∧
    (Measure_Trash.measureHeight sysFactory cur40 envDistOnly).trashcanEmptied = true := by
  norm_num [Measure_Trash.measureHeight, Measure_Trash.percentFullCalc,
    constrain, cur40, curGood, envDistOnly, sysFactory]

/-- C8 (amended): whenever fewer than two of the sensor reads succeed
during a measurement cycle (the distance read fails or the accelerometer
read fails), the stored heightInches, percentFull and lidOrientation are
zeroed; the emptied flag is not zeroed by this branch and keeps whatever
value the cycle (or its predecessor) left in it. -/
theorem c8_partial_failure_zeroes (sys : SysData) (cur : CurrentData)
    (env : MeasureEnv)
    (h : env.distReady = false ∨ env.accelSample = none) :
    (Measure_Trash.measureHeight sys cur env).trashHeight = 0 ∧
    (Measure_Trash.measureHeight sys cur env).percentFull = 0 ∧
    (Measure_Trash.measureHeight sys cur env).lidPosition = 0 := by
  rcases h with h | h
  · cases hacc : env.accelSample with
    | none => simp [Measure_Trash.measureHeight, h, hacc]
    | some s => simp [Measure_Trash.measureHeight, h, hacc]
  · cases hd : env.distReady <;> simp [Measure_Trash.measureHeight, h, hd]

/-- Witness for C8 (amended): distance read succeeds, accelerometer read
fails. -/
theorem c8_witness :
    (envDistOnly.distReady = false ∨ envDistOnly.accelSample = none) ∧
    ((Measure_Trash.measureHeight sysFactory curGood envDistOnly).trashHeight = 0 ∧
      (Measure_Trash.measureHeight sysFactory curGood envDistOnly).percentFull = 0 ∧
      (Measure_Trash.measureHeight sysFactory curGood envDistOnly).lidPosition = 0) :=
  ⟨Or.inr rfl,
    c8_partial_failure_zeroes sysFactory curGood envDistOnly (Or.inr rfl)⟩

/-- C9: `Take_Measurements::takeMeasurements` returns true on every
invocation, for every outcome of the sensor reads, including when the
distance-sensor or accelerometer read fails; its boolean result never
reports a measurement failure. -/
theorem c9_takeMeasurements_always_true (sys : SysData) (cur : CurrentData)
    (env : MeasureEnv) (connected : Bool) (vcell : ℚ) (adcReading : ℤ) :
    (Take_Measurements.takeMeasurements sys cur env connected vcell adcReading).1 =
      true := rfl

/-- C10: `currentStatusData::validate` invokes the base-class header
validation but discards its result: for any two stored records with
identical payload fields the validator returns the same verdict whether
or not the header magic, version and checksum were valid. -/
theorem c10_validate_ignores_header (b₁ b₂ : Bool) (sys : SysData)
    (cur : CurrentData) :
    currentStatusData.validate b₁ sys cur =
      currentStatusData.validate b₂ sys cur := rfl
